import Mathlib

/-!
# Verification of `st_control.controllers.ControlledWidget`

A shallow embedding of `src/st_control/controllers.py`.

Modelling choices:

* The Streamlit session state `st.session_state` is a per-session key/value
  store.  We model it as a structure with three components:
  - `vals`: the ordinary entries, a total function `String → Option V`
    (`none` = key absent, matching `st.session_state.get`);
  - `defaults`: the `__default_values__` sub-dictionary, `Option` of a map
    because the source lazily creates it (`none` = attribute not yet created);
  - `widgets`: the `__controlled_widgets__` sub-dictionary, again `Option` of
    a map from widget key to the tracked trigger-field snapshot.
* The source stores, under `__controlled_widgets__[key]`, the one-entry dict
  `{'tracked_trigger_fields': {...}}`; we flatten that singleton wrapper and
  store the snapshot mapping directly.
* A snapshot `{field: st.session_state.get(field) for field in fields}` is an
  association list `List (String × Option V)` built by mapping over the field
  list; `Option V` because `.get` yields `None` for an absent field.  (A
  Python dict deduplicates repeated keys, but all occurrences of a repeated
  field capture the same `.get` result at the same instant, so the any-change
  test below is unaffected.)
* Values stored in the session are opaque, a type `V` with decidable
  equality, compared with `!=` in the source and with `≠` on `Option V` here.
* `trigger_func` is a zero-argument Python callable reading the ambient
  session state; we model it as a function `SessionState V → Bool` applied to
  the current state.
* Methods that in Python read a sub-dictionary that may not exist
  (`AttributeError`) or may lack the key (`KeyError`) are modelled with
  `Option`: `none` is the propagated lookup error.
-/

/-- A string-keyed partial map, the shape of every dictionary in the model. -/
def Reg (α : Type) : Type := String → Option α

/-- Dictionary write `r[k] = v`. -/
def Reg.set {α : Type} (r : Reg α) (k : String) (v : α) : Reg α :=
  fun q => if q = k then some v else r q

/-- The empty dictionary `{}`. -/
def Reg.empty {α : Type} : Reg α := fun _ => none

/-- The tracked trigger-field snapshot:
`{field: st.session_state.get(field) for field in fields}`. -/
abbrev Snapshot (V : Type) : Type := List (String × Option V)

/-- The model of `st.session_state` for one user session. -/
structure SessionState (V : Type) where
  vals : Reg V
  defaults : Option (Reg V)
  widgets : Option (Reg (Snapshot V))

/-- Model of `st.session_state.__controlled_widgets__`, read as the source reads it
once it exists; `Reg.empty` stands for the not-yet-created dictionary. -/
def SessionState.widgetsReg {V : Type} (s : SessionState V) : Reg (Snapshot V) :=
  s.widgets.getD Reg.empty

/-- Model of `st.session_state.__default_values__` once it exists. -/
def SessionState.defaultsReg {V : Type} (s : SessionState V) : Reg V :=
  s.defaults.getD Reg.empty

/-- The in-memory `ControlledWidget` instance: `key`, `default_value`, the
optional `trigger_fields` list and the optional `trigger_func` predicate. -/
structure ControlledWidget (V : Type) where
  key : String
  default_value : V
  trigger_fields : Option (List String)
  trigger_func : Option (SessionState V → Bool)

namespace ControlledWidget

variable {V : Type}

/-- The dict comprehension in `__update_trigger_fields_session_state`:
`{field: st.session_state.get(field) for field in self.trigger_fields or []}`. -/
def captureTriggerFields (w : ControlledWidget V) (s : SessionState V) :
    Snapshot V :=
  (w.trigger_fields.getD []).map fun field => (field, s.vals field)

/-- Model of `__update_trigger_fields_session_state`: writes the freshly captured
snapshot under `self.key` in `__controlled_widgets__`.  The source assumes
the registry attribute already exists (every call site runs after `__init__`
created it); the model reads it through `widgetsReg`. -/
def updateTriggerFieldsSessionState (w : ControlledWidget V)
    (s : SessionState V) : SessionState V :=
  { s with widgets := some (s.widgetsReg.set w.key (w.captureTriggerFields s)) }

/-- Model of `ControlledWidget.__init__`, returning the constructed instance and the
updated session state.  Mirrors the source line by line:
create `__default_values__` if absent; set `st.session_state[key]` to
`default_value` if the key is absent; record the default in
`__default_values__`; create `__controlled_widgets__` if absent; and seed the
trigger-field snapshot only when the registry has no entry for the key yet. -/
def init (key : String) (default_value : V)
    (trigger_fields : Option (List String))
    (trigger_func : Option (SessionState V → Bool))
    (s : SessionState V) : ControlledWidget V × SessionState V :=
  let w : ControlledWidget V := ⟨key, default_value, trigger_fields, trigger_func⟩
  let s1 : SessionState V := { s with defaults := some s.defaultsReg }
  let s2 : SessionState V :=
    if (s1.vals key).isSome then s1
    else { s1 with vals := s1.vals.set key default_value }
  let s3 : SessionState V :=
    { s2 with defaults := some (s2.defaultsReg.set key default_value) }
  let s4 : SessionState V := { s3 with widgets := some s3.widgetsReg }
  let s5 : SessionState V :=
    if (s4.widgetsReg key).isSome then s4
    else w.updateTriggerFieldsSessionState s4
  (w, s5)

/-- Model of `set_trigger_fields`: replace the list, then recapture the snapshot. -/
def set_trigger_fields (w : ControlledWidget V) (fields : List String)
    (s : SessionState V) : ControlledWidget V × SessionState V :=
  let w2 : ControlledWidget V := { w with trigger_fields := some fields }
  (w2, w2.updateTriggerFieldsSessionState s)

/-- Model of `set_trigger_func`: replaces the predicate on the instance; the source
touches no session state here. -/
def set_trigger_func (w : ControlledWidget V)
    (f : SessionState V → Bool) : ControlledWidget V :=
  { w with trigger_func := some f }

/-- The `trigger_field_values` property:
`st.session_state.__controlled_widgets__[self.key]['tracked_trigger_fields']`.
`none` models the propagated missing-key lookup error. -/
def trigger_field_values (w : ControlledWidget V) (s : SessionState V) :
    Option (Snapshot V) :=
  s.widgetsReg w.key

/-- The `value` property: `st.session_state.get(self.key)`. -/
def value (w : ControlledWidget V) (s : SessionState V) : Option V :=
  s.vals w.key

/-- Model of `reset`: write `default_value` under `key`, then recapture the snapshot
(in that order, so the capture sees the freshly written value). -/
def reset (w : ControlledWidget V) (s : SessionState V) : SessionState V :=
  w.updateTriggerFieldsSessionState
    { s with vals := s.vals.set w.key w.default_value }

/-- Model of `has_triggered`: the trigger function wins; otherwise, when
`trigger_fields` is set, iterate over the stored snapshot's items and report
whether any field's current `.get` value differs from its captured value
(the for-loop with early `return True` and final `return False` is
`List.any`); otherwise `True`.  `none` models the `KeyError` that the
snapshot lookup raises when the registry has no entry for the key. -/
def has_triggered [DecidableEq V] (w : ControlledWidget V)
    (s : SessionState V) : Option Bool :=
  match w.trigger_func with
  | some f => some (f s)
  | none =>
    match w.trigger_fields with
    | some _ =>
      match w.trigger_field_values s with
      | some snap => some (snap.any fun p => decide (s.vals p.1 ≠ p.2))
      | none => none
    | none => some true

/-- Model of `__enter__`: if `has_triggered()`, overwrite the session value at `key`
with `default_value`; the snapshot is untouched here.  `none` propagates a
`has_triggered` lookup error. -/
def enter [DecidableEq V] (w : ControlledWidget V) (s : SessionState V) :
    Option (SessionState V) :=
  match w.has_triggered s with
  | none => none
  | some b =>
    some (if b then { s with vals := s.vals.set w.key w.default_value } else s)

/-- Model of `__exit__(exc_type, exc_value, traceback)`: recapture the snapshot,
ignoring the exception information, so the same update runs on normal and
error exit paths alike. -/
def exitWith [DecidableEq V] (w : ControlledWidget V) (exc : Option String)
    (s : SessionState V) : SessionState V :=
  match exc with
  | _ => w.updateTriggerFieldsSessionState s

end ControlledWidget

/-! ## Claims -/

/-- C3: for every widget whose `trigger_func` is set, `has_triggered()`
returns exactly the boolean result of `trigger_func`, regardless of
`trigger_fields` and of any trigger field's value or snapshot (the state `s`
and the rest of the widget are universally quantified). -/
theorem C3_trigger_func_decides {V : Type} [DecidableEq V]
    (w : ControlledWidget V) (s : SessionState V) (f : SessionState V → Bool)
    (h : w.trigger_func = some f) :
    w.has_triggered s = some (f s) := by
  simp [ControlledWidget.has_triggered, h]

/-- Witness for C3 at a concrete widget: the predicate checks whether
`field1` holds `7`, and it does, even though `trigger_fields` is also set. -/
theorem C3_trigger_func_decides_witness :
    (⟨"w", 0, some ["field1"], some fun t => decide (t.vals "field1" = some 7)⟩
        : ControlledWidget Nat).has_triggered
      ⟨fun k => if k = "field1" then some 7 else none, none, none⟩
      = some true :=
  C3_trigger_func_decides _ _ _ rfl

/-- C7: for every widget with both `trigger_func` and `trigger_fields`
unset, `has_triggered()` returns true on every call. -/
theorem C7_no_trigger_always_true {V : Type} [DecidableEq V]
    (w : ControlledWidget V) (s : SessionState V)
    (hfunc : w.trigger_func = none) (hfields : w.trigger_fields = none) :
    w.has_triggered s = some true := by
  simp [ControlledWidget.has_triggered, hfunc, hfields]

/-- Witness for C7 at a concrete widget with neither trigger set. -/
theorem C7_no_trigger_always_true_witness :
    (⟨"w", 0, none, none⟩ : ControlledWidget Nat).has_triggered
      ⟨fun k => if k = "w" then some 3 else none, none, none⟩ = some true :=
  C7_no_trigger_always_true _ _ rfl rfl

/-- C6: `reset()` unconditionally overwrites the session value at the
widget's key with `default_value`, and the trigger-field snapshot stored for
the key afterwards maps each trigger field to its session value at the
moment of the reset (read from the post-reset state, whose `vals` the
capture itself does not change). -/
theorem C6_reset_overwrites_and_recaptures {V : Type}
    (w : ControlledWidget V) (s : SessionState V) :
    (w.reset s).vals w.key = some w.default_value ∧
    (w.reset s).widgetsReg w.key =
      some ((w.trigger_fields.getD []).map fun f => (f, (w.reset s).vals f)) := by
  constructor
  · simp [ControlledWidget.reset, ControlledWidget.updateTriggerFieldsSessionState,
      Reg.set]
  · simp [ControlledWidget.reset, ControlledWidget.updateTriggerFieldsSessionState,
      ControlledWidget.captureTriggerFields, SessionState.widgetsReg, Reg.set]

/-- C9: reading `trigger_field_values` when the controlled-widgets registry
has no entry for the widget's key yields the propagated lookup error
(modelled `none`); when an entry exists, it returns exactly the stored
snapshot. -/
theorem C9_trigger_field_values_lookup {V : Type}
    (w : ControlledWidget V) (s : SessionState V) :
    (s.widgetsReg w.key = none → w.trigger_field_values s = none) ∧
    (∀ snap : Snapshot V, s.widgetsReg w.key = some snap →
      w.trigger_field_values s = some snap) := by
  exact ⟨fun h => h, fun _ h => h⟩

/-- Witness for C9: with an empty registry the lookup fails; with an entry
under the key it returns the stored snapshot. -/
theorem C9_trigger_field_values_lookup_witness :
    (⟨"w", 0, some ["field1"], none⟩ : ControlledWidget Nat).trigger_field_values
        ⟨fun _ => none, none, some Reg.empty⟩ = none ∧
    (⟨"w", 0, some ["field1"], none⟩ : ControlledWidget Nat).trigger_field_values
        ⟨fun _ => none, none,
          some (Reg.empty.set "w" [("field1", some 5)])⟩
      = some [("field1", some 5)] :=
  ⟨(C9_trigger_field_values_lookup _ _).1 rfl,
   (C9_trigger_field_values_lookup _ _).2 [("field1", some 5)] (by
      simp [SessionState.widgetsReg, Reg.set, Reg.empty])⟩

/-- C1: with `trigger_func` unset and `trigger_fields` set to `fields`
(possibly empty), and the stored snapshot for the key being the capture of
exactly those fields at an earlier state `s0`, `has_triggered()` is true iff
some trigger field's current session value differs from its captured value;
in particular a field absent now but captured present, or present now but
captured absent, triggers. -/
theorem C1_field_change_detection {V : Type} [DecidableEq V]
    (w : ControlledWidget V) (fields : List String) (s s0 : SessionState V)
    (hfunc : w.trigger_func = none)
    (hfields : w.trigger_fields = some fields)
    (hsnap : w.trigger_field_values s =
      some (fields.map fun f => (f, s0.vals f))) :
    (w.has_triggered s = some true ↔ ∃ f ∈ fields, s.vals f ≠ s0.vals f) ∧
    (∀ f ∈ fields, (s.vals f).isNone → (s0.vals f).isSome →
      w.has_triggered s = some true) ∧
    (∀ f ∈ fields, (s.vals f).isSome → (s0.vals f).isNone →
      w.has_triggered s = some true) := by
  have hmain : w.has_triggered s = some true ↔
      ∃ f ∈ fields, s.vals f ≠ s0.vals f := by
    simp [ControlledWidget.has_triggered, hfunc, hfields, hsnap,
      List.any_map, List.any_eq_true, Function.comp]
  refine ⟨hmain, ?_, ?_⟩
  · intro f hf h1 h2
    rw [Option.isNone_iff_eq_none] at h1
    rw [Option.isSome_iff_exists] at h2
    obtain ⟨v, hv⟩ := h2
    exact hmain.mpr ⟨f, hf, by rw [h1, hv]; exact fun h => Option.noConfusion h⟩
  · intro f hf h1 h2
    rw [Option.isSome_iff_exists] at h1
    rw [Option.isNone_iff_eq_none] at h2
    obtain ⟨v, hv⟩ := h1
    exact hmain.mpr ⟨f, hf, by rw [h2, hv]; exact fun h => Option.noConfusion h⟩

/-- Witness for C1, the spec's example: snapshot `{field1: a, field2: b}`,
`field1` changed to `x` while `field2` is unchanged, so `has_triggered()` is
true. -/
theorem C1_field_change_detection_witness :
    (⟨"my_text_input", "initial value", some ["field1", "field2"], none⟩
        : ControlledWidget String).has_triggered
      ⟨fun k => if k = "field1" then some "x"
                else if k = "field2" then some "b" else none,
       none,
       some (Reg.empty.set "my_text_input"
         [("field1", some "a"), ("field2", some "b")])⟩
      = some true :=
  (C1_field_change_detection _ ["field1", "field2"] _
      ⟨fun k => if k = "field1" then some "a"
                else if k = "field2" then some "b" else none,
       none, none⟩
      rfl rfl (by simp [ControlledWidget.trigger_field_values,
        SessionState.widgetsReg, Reg.set, Reg.empty])).1.mpr
    ⟨"field1", by simp, by simp⟩

/-- C10: with `trigger_func` unset and `trigger_fields` set, `has_triggered()`
compares exactly the snapshot's stored field entries against the current
session, and its result is invariant under replacing the instance's
`trigger_fields` list by any other set list: fields only in the new list are
ignored, fields in the snapshot are still compared. -/
theorem C10_snapshot_keys_govern {V : Type} [DecidableEq V]
    (w : ControlledWidget V) (s : SessionState V) (snap : Snapshot V)
    (fields2 : List String)
    (hfunc : w.trigger_func = none)
    (hfields : (w.trigger_fields).isSome)
    (hsnap : w.trigger_field_values s = some snap) :
    (w.has_triggered s = some true ↔ ∃ p ∈ snap, s.vals p.1 ≠ p.2) ∧
    ({ w with trigger_fields := some fields2 } : ControlledWidget V).has_triggered s
      = w.has_triggered s := by
  rw [Option.isSome_iff_exists] at hfields
  obtain ⟨fields, hfields⟩ := hfields
  constructor
  · simp [ControlledWidget.has_triggered, hfunc, hfields, hsnap,
      List.any_eq_true, Prod.exists]
  · simp [ControlledWidget.has_triggered, ControlledWidget.trigger_field_values,
      hfunc, hfields]

/-- Witness for C10: the snapshot holds only `field1` (captured `a`, now `x`)
while the instance's list was replaced by `["field3"]`; the widget still
triggers, and replacing the list changes nothing. -/
theorem C10_snapshot_keys_govern_witness :
    ((⟨"w", 0, some ["field1"], none⟩ : ControlledWidget Nat).has_triggered
        ⟨fun k => if k = "field1" then some 9 else none, none,
         some (Reg.empty.set "w" [("field1", some 1)])⟩ = some true) ∧
    (⟨"w", 0, some ["field3"], none⟩ : ControlledWidget Nat).has_triggered
        ⟨fun k => if k = "field1" then some 9 else none, none,
         some (Reg.empty.set "w" [("field1", some 1)])⟩
      = (⟨"w", 0, some ["field1"], none⟩ : ControlledWidget Nat).has_triggered
        ⟨fun k => if k = "field1" then some 9 else none, none,
         some (Reg.empty.set "w" [("field1", some 1)])⟩ :=
  ⟨(C10_snapshot_keys_govern
      (⟨"w", 0, some ["field1"], none⟩ : ControlledWidget Nat)
      ⟨fun k => if k = "field1" then some 9 else none, none,
       some (Reg.empty.set "w" [("field1", some 1)])⟩
      [("field1", some 1)] ["field3"] rfl (by simp)
      (by simp [ControlledWidget.trigger_field_values,
        SessionState.widgetsReg, Reg.set, Reg.empty])).1.mpr
    ⟨("field1", some 1), by simp, by simp⟩,
   (C10_snapshot_keys_govern
      (⟨"w", 0, some ["field1"], none⟩ : ControlledWidget Nat)
      ⟨fun k => if k = "field1" then some 9 else none, none,
       some (Reg.empty.set "w" [("field1", some 1)])⟩
      [("field1", some 1)] ["field3"] rfl (by simp)
      (by simp [ControlledWidget.trigger_field_values,
        SessionState.widgetsReg, Reg.set, Reg.empty])).2⟩

/-- Helper: the session values after `init` — unchanged when the key was
already present, otherwise with the default written at the key. -/
theorem init_vals_eq {V : Type} (key : String) (dv : V)
    (tf : Option (List String)) (tfunc : Option (SessionState V → Bool))
    (s : SessionState V) :
    (ControlledWidget.init key dv tf tfunc s).2.vals =
      if (s.vals key).isSome then s.vals else s.vals.set key dv := by
  unfold ControlledWidget.init ControlledWidget.updateTriggerFieldsSessionState
  dsimp only
  split <;> split <;> rfl

/-- Helper: the controlled-widgets registry after `init` — unchanged when it
already had an entry for the key, otherwise extended with the snapshot of the
trigger fields' values as of just after the default write. -/
theorem init_widgetsReg_eq {V : Type} (key : String) (dv : V)
    (tf : Option (List String)) (tfunc : Option (SessionState V → Bool))
    (s : SessionState V) :
    (ControlledWidget.init key dv tf tfunc s).2.widgetsReg =
      if (s.widgetsReg key).isSome then s.widgetsReg
      else s.widgetsReg.set key
        ((tf.getD []).map fun f =>
          (f, (ControlledWidget.init key dv tf tfunc s).2.vals f)) := by
  by_cases h1 : (s.vals key).isSome <;>
  by_cases h2 : (s.widgets.getD Reg.empty key).isSome <;>
  simp [ControlledWidget.init, ControlledWidget.updateTriggerFieldsSessionState,
    ControlledWidget.captureTriggerFields, SessionState.widgetsReg, h1, h2]

/-- C4: constructing with a fresh key (absent from the session mapping and
from the controlled-widgets registry) sets the session value at the key to
`default_value` and seeds the snapshot for the key to the trigger fields'
current session values (read just after the default write); re-constructing
when the registry already holds an entry for the key leaves that snapshot
exactly as it was, whatever the trigger fields' session values are now. -/
theorem C4_seed_once {V : Type} (key : String) (dv : V)
    (tf : Option (List String)) (tfunc : Option (SessionState V → Bool))
    (s : SessionState V) :
    (s.vals key = none → s.widgetsReg key = none →
      ((ControlledWidget.init key dv tf tfunc s).2.vals key = some dv ∧
       (ControlledWidget.init key dv tf tfunc s).2.widgetsReg key =
         some ((tf.getD []).map fun f =>
           (f, (ControlledWidget.init key dv tf tfunc s).2.vals f)))) ∧
    (∀ snap : Snapshot V, s.widgetsReg key = some snap →
      (ControlledWidget.init key dv tf tfunc s).2.widgetsReg key = some snap) := by
  refine ⟨fun h1 h2 => ⟨?_, ?_⟩, fun snap h2 => ?_⟩
  · rw [init_vals_eq]
    simp [h1, Reg.set]
  · rw [init_widgetsReg_eq]
    simp [h2, Reg.set]
  · rw [init_widgetsReg_eq]
    simp [h2]

/-- Witness for C4: a fresh construction of key `k` (field `f` holding `1`)
stores default `0` and snapshot `{f: 1}`; a later re-construction with `f`
now holding `2`, the key present and the registry entry present keeps the
old snapshot `{f: 1}`. -/
theorem C4_seed_once_witness :
    ((ControlledWidget.init "k" (0 : Nat) (some ["f"]) none
        ⟨fun q => if q = "f" then some 1 else none, none, none⟩).2.vals "k"
        = some 0 ∧
     (ControlledWidget.init "k" (0 : Nat) (some ["f"]) none
        ⟨fun q => if q = "f" then some 1 else none, none, none⟩).2.widgetsReg "k"
        = some [("f", some 1)]) ∧
    (ControlledWidget.init "k" (0 : Nat) (some ["f"]) none
        ⟨fun q => if q = "k" then some 5 else if q = "f" then some 2 else none,
         none, some (Reg.empty.set "k" [("f", some 1)])⟩).2.widgetsReg "k"
      = some [("f", some 1)] :=
  ⟨(C4_seed_once "k" 0 (some ["f"]) none
      ⟨fun q => if q = "f" then some 1 else none, none, none⟩).1 rfl rfl,
   (C4_seed_once "k" 0 (some ["f"]) none
      ⟨fun q => if q = "k" then some 5 else if q = "f" then some 2 else none,
       none, some (Reg.empty.set "k" [("f", some 1)])⟩).2 [("f", some 1)] rfl⟩

/-- C2: in the scoped-acquisition pattern, entry overwrites the session value
at the key with `default_value` exactly when `has_triggered()` is true,
leaves the state untouched when it is false, and never touches the snapshot
registry; exit — for every exception argument, i.e. on error paths too —
recaptures the trigger-field snapshot to the fields' current values. -/
theorem C2_scoped_entry_exit {V : Type} [DecidableEq V]
    (w : ControlledWidget V) (s s2 : SessionState V) (exc : Option String)
    (henter : w.enter s = some s2) :
    s2.widgets = s.widgets ∧
    (w.has_triggered s = some true →
      s2.vals = s.vals.set w.key w.default_value) ∧
    (w.has_triggered s = some false → s2 = s) ∧
    (w.exitWith exc s2).widgetsReg w.key = some (w.captureTriggerFields s2) := by
  have hexit : (w.exitWith exc s2).widgetsReg w.key
      = some (w.captureTriggerFields s2) := by
    simp [ControlledWidget.exitWith, ControlledWidget.updateTriggerFieldsSessionState,
      SessionState.widgetsReg, Reg.set]
  unfold ControlledWidget.enter at henter
  cases htr : w.has_triggered s with
  | none => rw [htr] at henter; exact absurd henter (by simp)
  | some b =>
    rw [htr] at henter
    simp only [Option.some.injEq] at henter
    cases b with
    | true =>
      simp only [if_true] at henter
      subst henter
      exact ⟨rfl, fun _ => rfl, fun hfalse => by simp at hfalse, hexit⟩
    | false =>
      simp only [Bool.false_eq_true, if_false] at henter
      subst henter
      exact ⟨rfl, fun htrue => by simp at htrue, fun _ => rfl, hexit⟩

/-- Witness for C2: a concrete triggered entry (no trigger configured, so
always triggered) leaves the snapshot registry untouched, and a subsequent
exit carrying an exception still recaptures the (empty) snapshot. -/
theorem C2_scoped_entry_exit_witness :
    (⟨Reg.set (fun q => if q = "k" then some 5 else none) "k" 0, none,
        some Reg.empty⟩ : SessionState Nat).widgets
      = (⟨fun q => if q = "k" then some 5 else none, none,
          some Reg.empty⟩ : SessionState Nat).widgets ∧
    ((⟨"k", 0, none, none⟩ : ControlledWidget Nat).exitWith (some "err")
        ⟨Reg.set (fun q => if q = "k" then some 5 else none) "k" 0, none,
         some Reg.empty⟩).widgetsReg "k" = some [] :=
  ⟨(C2_scoped_entry_exit (⟨"k", 0, none, none⟩ : ControlledWidget Nat)
      ⟨fun q => if q = "k" then some 5 else none, none, some Reg.empty⟩
      ⟨Reg.set (fun q => if q = "k" then some 5 else none) "k" 0, none,
       some Reg.empty⟩ (some "err") rfl).1,
   (C2_scoped_entry_exit (⟨"k", 0, none, none⟩ : ControlledWidget Nat)
      ⟨fun q => if q = "k" then some 5 else none, none, some Reg.empty⟩
      ⟨Reg.set (fun q => if q = "k" then some 5 else none) "k" 0, none,
       some Reg.empty⟩ (some "err") rfl).2.2.2⟩

/-- C8: for every controlled key, `init` establishes a session value for it
(the default on first construction if absent), and every subsequent
operation — re-construction, `set_trigger_fields`, `reset`, scoped entry,
scoped exit — preserves membership of any present key in the session
mapping (`trigger_field_values`, `value`, `has_triggered` and
`set_trigger_func` are modelled as pure and leave the state untouched by
construction). -/
theorem C8_membership_invariant {V : Type} [DecidableEq V]
    (key k : String) (dv : V) (tf : Option (List String))
    (tfunc : Option (SessionState V → Bool)) (w : ControlledWidget V)
    (s s2 : SessionState V) (fields : List String) (exc : Option String) :
    ((ControlledWidget.init key dv tf tfunc s).2.vals key).isSome ∧
    ((s.vals k).isSome →
      ((ControlledWidget.init key dv tf tfunc s).2.vals k).isSome) ∧
    ((s.vals k).isSome → ((w.set_trigger_fields fields s).2.vals k).isSome) ∧
    ((s.vals k).isSome → ((w.reset s).vals k).isSome) ∧
    ((s.vals k).isSome → w.enter s = some s2 → (s2.vals k).isSome) ∧
    ((s.vals k).isSome → ((w.exitWith exc s).vals k).isSome) := by
  refine ⟨?_, fun h => ?_, fun h => h, fun h => ?_, fun h henter => ?_,
    fun h => h⟩
  · rw [init_vals_eq]
    by_cases h1 : (s.vals key).isSome <;> simp [h1, Reg.set]
  · rw [init_vals_eq]
    by_cases h1 : (s.vals key).isSome
    · simpa [h1] using h
    · simp only [h1, if_false]
      by_cases hk : k = key <;> simp [Reg.set, hk, h]
  · show ((Reg.set s.vals w.key w.default_value) k).isSome = true
    by_cases hk : k = w.key <;> simp [Reg.set, hk, h]
  · unfold ControlledWidget.enter at henter
    cases htr : w.has_triggered s with
    | none => rw [htr] at henter; exact absurd henter (by simp)
    | some b =>
      rw [htr] at henter
      simp only [Option.some.injEq] at henter
      cases b with
      | true =>
        subst henter
        show ((Reg.set s.vals w.key w.default_value) k).isSome = true
        by_cases hk : k = w.key <;> simp [Reg.set, hk, h]
      | false =>
        simp only [Bool.false_eq_true, if_false] at henter
        subst henter
        exact h

/-- Witness for C8: a fresh construction of `k` makes a value present, and a
`reset` on a state where `k` is present keeps it present. -/
theorem C8_membership_invariant_witness :
    ((ControlledWidget.init "k" (3 : Nat) none none
        ⟨fun _ => none, none, none⟩).2.vals "k").isSome ∧
    (((⟨"k", 3, none, none⟩ : ControlledWidget Nat).reset
        ⟨fun q => if q = "k" then some 9 else none, none,
         some Reg.empty⟩).vals "k").isSome :=
  ⟨(C8_membership_invariant "k" "k" 3 none none ⟨"k", 3, none, none⟩
      ⟨fun _ => none, none, none⟩ ⟨fun _ => none, none, none⟩ [] none).1,
   (C8_membership_invariant "k" "k" 3 none none ⟨"k", 3, none, none⟩
      ⟨fun q => if q = "k" then some 9 else none, none, some Reg.empty⟩
      ⟨fun _ => none, none, none⟩ [] none).2.2.2.1 rfl⟩

/-- C5 counterexample: the claim lists scoped entry among the operations
that leave the session value at the widget's key unchanged, but `__enter__`
overwrites it when the widget has triggered: here `k` holds `5` before
entry and `0` (the default) afterwards. -/
theorem C5_reset_only_mutator_counterexample :
    (⟨"k", 0, none, none⟩ : ControlledWidget Nat).enter
        ⟨fun q => if q = "k" then some 5 else none, none, some Reg.empty⟩
      = some ⟨Reg.set (fun q => if q = "k" then some 5 else none) "k" 0, none,
              some Reg.empty⟩ ∧
    (fun q => if q = "k" then some (5 : Nat) else none) "k" = some 5 ∧
    Reg.set (fun q => if q = "k" then some (5 : Nat) else none) "k" 0 "k"
      = some 0 ∧
    some (5 : Nat) ≠ some 0 :=
  ⟨rfl, rfl, rfl, by decide⟩

/-- C5 amended: `reset()` and a *triggered* scoped entry are the only
operations that write the session value at the widget's key (both write
`default_value`); construction with the key already present,
`set_trigger_fields`, a non-triggered scoped entry and scoped exit leave it
unchanged (`set_trigger_func`, `has_triggered`, `trigger_field_values` and
`value` are modelled as pure functions and touch no session state at all). -/
theorem C5_value_mutators {V : Type} [DecidableEq V]
    (key : String) (dv : V) (tf : Option (List String))
    (tfunc : Option (SessionState V → Bool)) (w : ControlledWidget V)
    (s s2 : SessionState V) (fields : List String) (exc : Option String) :
    ((s.vals key).isSome →
      (ControlledWidget.init key dv tf tfunc s).2.vals key = s.vals key) ∧
    (w.set_trigger_fields fields s).2.vals w.key = s.vals w.key ∧
    (w.enter s = some s2 → w.has_triggered s = some false →
      s2.vals w.key = s.vals w.key) ∧
    (w.enter s = some s2 → w.has_triggered s = some true →
      s2.vals w.key = some w.default_value) ∧
    (w.exitWith exc s).vals w.key = s.vals w.key ∧
    (w.reset s).vals w.key = some w.default_value := by
  refine ⟨fun h => ?_, rfl, fun henter hfalse => ?_, fun henter htrue => ?_,
    rfl, ?_⟩
  · rw [init_vals_eq]
    simp [h]
  · unfold ControlledWidget.enter at henter
    rw [hfalse] at henter
    simp at henter
    subst henter
    rfl
  · unfold ControlledWidget.enter at henter
    rw [htrue] at henter
    simp at henter
    subst henter
    show (Reg.set s.vals w.key w.default_value) w.key = some w.default_value
    simp [Reg.set]
  · show (Reg.set s.vals w.key w.default_value) w.key = some w.default_value
    simp [Reg.set]

/-- Witness for C5 amended: on a concrete state where `k` holds `5`, scoped
exit leaves the value reading `5`, while `reset` and a triggered scoped
entry write the default `0`. -/
theorem C5_value_mutators_witness :
    ((⟨"k", 0, none, none⟩ : ControlledWidget Nat).exitWith none
        ⟨fun q => if q = "k" then some 5 else none, none,
         some Reg.empty⟩).vals "k"
      = (fun q => if q = "k" then some (5 : Nat) else none) "k" ∧
    ((⟨"k", 0, none, none⟩ : ControlledWidget Nat).reset
        ⟨fun q => if q = "k" then some 5 else none, none,
         some Reg.empty⟩).vals "k" = some 0 ∧
    (⟨Reg.set (fun q => if q = "k" then some 5 else none) "k" 0, none,
        some Reg.empty⟩ : SessionState Nat).vals "k" = some 0 :=
  ⟨(C5_value_mutators "k" 0 none none (⟨"k", 0, none, none⟩ : ControlledWidget Nat)
      ⟨fun q => if q = "k" then some 5 else none, none, some Reg.empty⟩
      ⟨fun q => if q = "k" then some 5 else none, none, some Reg.empty⟩
      [] none).2.2.2.2.1,
   (C5_value_mutators "k" 0 none none (⟨"k", 0, none, none⟩ : ControlledWidget Nat)
      ⟨fun q => if q = "k" then some 5 else none, none, some Reg.empty⟩
      ⟨fun q => if q = "k" then some 5 else none, none, some Reg.empty⟩
      [] none).2.2.2.2.2,
   (C5_value_mutators "k" 0 none none (⟨"k", 0, none, none⟩ : ControlledWidget Nat)
      ⟨fun q => if q = "k" then some 5 else none, none, some Reg.empty⟩
      ⟨Reg.set (fun q => if q = "k" then some 5 else none) "k" 0, none,
       some Reg.empty⟩ [] none).2.2.2.1 rfl rfl⟩
